import Mathlib

/-!
Verification of the MOSFET simulator's device-physics evaluation engine.

The Python source is shallowly embedded over exact rationals: each evaluator
becomes a pure Lean function on `ℚ`, mirroring the arithmetic of
`mosfet_simulator/modules/physics_engine.py`, `modules/advanced_physics.py`
and `app_enhanced.py` term by term.  Decimal constants from the source are
written as exact fractions (e.g. `3.45e-3 = 69/20000`).
-/

/-- Operating region returned by the evaluators (the Python code uses the
strings Cut-off, Linear, Saturation). -/
inductive Region where
  | cutoff
  | linear
  | saturation
deriving DecidableEq

/-- Material record: the numeric fields of an entry of `MATERIAL_PROPERTIES`
(the evaluators read them with `.get(key, default)`; a caller supplies the
default value for a missing key, so fields are total here). -/
structure Material where
  bandgap_value : ℚ
  electron_mobility_value : ℚ
  thermal_conductivity_value : ℚ
  breakdown_field_value : ℚ
  dielectric_constant : ℚ
  saturation_velocity : ℚ
deriving DecidableEq

/-- Geometry record: the numeric fields of the `geometry` dictionary. -/
structure Geometry where
  length : ℚ
  width : ℚ
  oxide_thickness : ℚ
  C_ox : ℚ
  V_th : ℚ
deriving DecidableEq

/-- `MOSFETPhysics.calculate_drain_current` from
`mosfet_simulator/modules/physics_engine.py` (identical copy in
`app_enhanced.py`): square-law model with cut-off / linear / saturation
regions; mobility is converted from cm²/V·s to m²/V·s by the factor 1e-4. -/
def calculate_drain_current (V_gs V_ds : ℚ) (material : Material)
    (geometry : Geometry) : ℚ × Region :=
  let mu_n := material.electron_mobility_value
  let C_ox := geometry.C_ox
  let W := geometry.width
  let L := geometry.length
  let V_th := geometry.V_th
  let mu_n_si := mu_n * (1/10000)
  let V_ds_sat := max (V_gs - V_th) 0
  if V_gs ≤ V_th then
    (0, Region.cutoff)
  else if V_ds < V_ds_sat then
    (mu_n_si * C_ox * (W/L) * ((V_gs - V_th) * V_ds - (1/2) * V_ds^2),
      Region.linear)
  else
    ((1/2) * mu_n_si * C_ox * (W/L) * (V_gs - V_th)^2, Region.saturation)

/-- `MOSFETPhysics.calculate_breakdown_voltage` from
`mosfet_simulator/modules/physics_engine.py`: `E_br` is the material's
breakdown field in MV/cm scaled by 1e6 to V/cm, and
`V_br = E_br * thickness * 1e-4`. -/
def calculate_breakdown_voltage (material : Material) (thickness : ℚ) : ℚ :=
  let E_br := material.breakdown_field_value * 1000000
  E_br * thickness * (1/10000)

/-- The Silicon entry of `MATERIAL_PROPERTIES` (the stated defaults):
bandgap 1.12 eV, mobility 1400 cm²/V·s, thermal conductivity 150 W/m·K,
breakdown field 0.3 MV/cm, dielectric constant 11.7, saturation velocity
1e7 cm/s. -/
def siMaterial : Material where
  bandgap_value := 28/25
  electron_mobility_value := 1400
  thermal_conductivity_value := 150
  breakdown_field_value := 3/10
  dielectric_constant := 117/10
  saturation_velocity := 10000000

/-- The default geometry of the basic simulator page: L = 1 µm, W = 10 µm,
t_ox = 2 nm, C_ox = 3.45e-3 F/m², V_th = 0.7 V. -/
def defaultGeometry : Geometry where
  length := 1/1000000
  width := 1/100000
  oxide_thickness := 1/500000000
  C_ox := 69/20000
  V_th := 7/10

/-- `epsilon_0 = 8.854e-12` F/m, set in `AdvancedMOSFETPhysics.__init__`. -/
def epsilon_0 : ℚ := 8854/1000000000000000

/-- `AdvancedMOSFETPhysics._temperature_dependent_mobility`:
`μ_300 · (300/T)^2.0` with μ_300 the material's reference mobility. -/
def temperature_dependent_mobility (material : Material) (T : ℚ) : ℚ :=
  material.electron_mobility_value * (300 / T)^2

/-- `AdvancedMOSFETPhysics._temperature_dependent_vth`:
`V_th0 − 0.002·(T − 300)`. -/
def temperature_dependent_vth (V_th0 T : ℚ) : ℚ :=
  V_th0 - (2/1000) * (T - 300)

/-- `AdvancedMOSFETPhysics._dibl_effect`: `η = 0.1/(L·1e6)` and
`V_th − η·V_ds`. -/
def dibl_effect (V_th V_ds L : ℚ) : ℚ :=
  let eta := (1/10) / (L * 1000000)
  V_th - eta * V_ds

/-- `AdvancedMOSFETPhysics._channel_length_modulation`: `0.1/(L·1e6)`
(the `V_ds` argument is ignored by the source). -/
def channel_length_modulation (L V_ds : ℚ) : ℚ :=
  (1/10) / (L * 1000000)

/-- The diagnostics dictionary returned by
`calculate_with_short_channel_effects` (keys `effective_vth`,
`dibl_effect`, `velocity_saturation_factor`). -/
structure ExtDiagnostics where
  effective_vth : ℚ
  dibl_effect : ℚ
  velocity_saturation_factor : ℚ
deriving DecidableEq

/-- `AdvancedMOSFETPhysics.calculate_with_short_channel_effects` from
`app_enhanced.py` (the simple variant): temperature-corrected mobility and
threshold, DIBL-corrected threshold, `V_ds_sat = V_gt`, square-law linear
current, saturation current with the CLM multiplier, and a constant 0.8
`velocity_saturation_factor`.  The Kelvin conversion adds 273.15. -/
def calculate_with_short_channel_effects_simple (V_gs V_ds : ℚ)
    (material : Material) (geometry : Geometry) (temperature : ℚ) :
    ℚ × Region × ExtDiagnostics :=
  let L := geometry.length
  let W := geometry.width
  let t_ox := geometry.oxide_thickness
  let V_th0 := geometry.V_th
  let T := temperature + 5463/20
  let mu_n := temperature_dependent_mobility material T
  let V_th := temperature_dependent_vth V_th0 T
  let V_th_sc := dibl_effect V_th V_ds L
  let lambda_clm := channel_length_modulation L V_ds
  let C_ox := material.dielectric_constant * epsilon_0 / t_ox
  if V_gs ≤ V_th_sc then
    (0, Region.cutoff, ⟨V_th_sc, V_th_sc - V_th0, 8/10⟩)
  else
    let V_gt := V_gs - V_th_sc
    let V_ds_sat := V_gt
    if V_ds < V_ds_sat then
      (mu_n * C_ox * (W/L) * ((V_gs - V_th_sc) * V_ds - (1/2) * V_ds^2),
        Region.linear, ⟨V_th_sc, V_th_sc - V_th0, 8/10⟩)
    else
      let I_d_sat := (1/2) * mu_n * C_ox * (W/L) * (V_gs - V_th_sc)^2
      (I_d_sat * (1 + lambda_clm * (V_ds - V_ds_sat)),
        Region.saturation, ⟨V_th_sc, V_th_sc - V_th0, 8/10⟩)

/-- The simple variant called without an explicit temperature argument:
the Python default is `temperature=300`. -/
def calculate_with_short_channel_effects_simple_default (V_gs V_ds : ℚ)
    (material : Material) (geometry : Geometry) : ℚ × Region × ExtDiagnostics :=
  calculate_with_short_channel_effects_simple V_gs V_ds material geometry 300

/-- `AdvancedMOSFETPhysics.calculate_with_short_channel_effects` from
`modules/advanced_physics.py` (the velocity-saturation variant):
additionally `v_sat` is converted cm/s → m/s by 1e-2, `E_c = v_sat/μ`,
`V_ds_sat = V_gt/(1 + V_gt/(E_c·L))`, the linear current is divided by
`(1 + V_ds/(E_c·L))`, the saturation current by `(1 + V_gt/(E_c·L))`, and
the `velocity_saturation_factor` is `V_ds_sat/(V_gs − V_th_sc)` when
`V_gs > V_th_sc` and 0 otherwise. -/
def calculate_with_short_channel_effects_velsat (V_gs V_ds : ℚ)
    (material : Material) (geometry : Geometry) (temperature : ℚ) :
    ℚ × Region × ExtDiagnostics :=
  let L := geometry.length
  let W := geometry.width
  let t_ox := geometry.oxide_thickness
  let V_th0 := geometry.V_th
  let T := temperature + 5463/20
  let mu_n := temperature_dependent_mobility material T
  let V_th := temperature_dependent_vth V_th0 T
  let V_th_sc := dibl_effect V_th V_ds L
  let lambda_clm := channel_length_modulation L V_ds
  let C_ox := material.dielectric_constant * epsilon_0 / t_ox
  let v_sat := material.saturation_velocity * (1/100)
  let E_c := v_sat / mu_n
  if V_gs ≤ V_th_sc then
    (0, Region.cutoff, ⟨V_th_sc, V_th_sc - V_th0, 0⟩)
  else
    let V_gt := V_gs - V_th_sc
    let V_ds_sat := V_gt / (1 + V_gt / (E_c * L))
    if V_ds < V_ds_sat then
      ((mu_n * C_ox * W / L) * (V_gt * V_ds - (1/2) * V_ds^2) /
          (1 + V_ds / (E_c * L)),
        Region.linear,
        ⟨V_th_sc, V_th_sc - V_th0, V_ds_sat / (V_gs - V_th_sc)⟩)
    else
      let I_d_sat := (1/2) * mu_n * C_ox * W / L * V_gt^2 /
        (1 + V_gt / (E_c * L))
      (I_d_sat * (1 + lambda_clm * (V_ds - V_ds_sat)),
        Region.saturation,
        ⟨V_th_sc, V_th_sc - V_th0, V_ds_sat / (V_gs - V_th_sc)⟩)

/-- The velocity-saturation variant called without an explicit temperature
argument: the Python default is `temperature=300`. -/
def calculate_with_short_channel_effects_velsat_default (V_gs V_ds : ℚ)
    (material : Material) (geometry : Geometry) : ℚ × Region × ExtDiagnostics :=
  calculate_with_short_channel_effects_velsat V_gs V_ds material geometry 300

/-- Test material for concrete evaluations: mobility 1000 cm²/V·s,
dielectric constant 2, saturation velocity 100 cm/s; remaining fields
arbitrary positive values. -/
def testMaterial : Material where
  bandgap_value := 1
  electron_mobility_value := 1000
  thermal_conductivity_value := 100
  breakdown_field_value := 1
  dielectric_constant := 2
  saturation_velocity := 100

/-- Test geometry: L = 1e-6 m (so η = λ = 0.1), W = 2e-6 m, and `t_ox`
numerically equal to `epsilon_0` so that `C_ox` evaluates to the
dielectric constant. -/
def testGeometry : Geometry where
  length := 1/1000000
  width := 2/1000000
  oxide_thickness := 8854/1000000000000000
  C_ox := 69/20000
  V_th := 7/10

/-- Claim C1: the basic evaluator decides by priority order: cut-off with
zero current when `V_gs ≤ V_th`; otherwise linear with
`I_d = (μ·1e-4)·C_ox·(W/L)·((V_gs−V_th)·V_ds − 0.5·V_ds²)` when
`V_ds < max (V_gs − V_th) 0`; otherwise saturation with
`I_d = 0.5·(μ·1e-4)·C_ox·(W/L)·(V_gs−V_th)²`. -/
theorem basic_evaluator_region_priority (V_gs V_ds : ℚ) (m : Material)
    (g : Geometry) :
    calculate_drain_current V_gs V_ds m g =
      if V_gs ≤ g.V_th then (0, Region.cutoff)
      else if V_ds < max (V_gs - g.V_th) 0 then
        ((m.electron_mobility_value * (1/10000)) * g.C_ox *
            (g.width / g.length) *
            ((V_gs - g.V_th) * V_ds - (1/2) * V_ds^2), Region.linear)
      else
        ((1/2) * (m.electron_mobility_value * (1/10000)) * g.C_ox *
            (g.width / g.length) * (V_gs - g.V_th)^2, Region.saturation) :=
  rfl

/-- Claim C4, counterexample: with the Si defaults at V_gs = 3 V, V_ds = 5 V
the basic evaluator's drain current is exactly 255507/20000000 A
(= 1.277535e-2 A ≈ 12.8 mA), which is not ≈ 1.243e-3 A: it misses that
value by more than 1e-2 A. -/
theorem basic_example1_current_not_1t24mA :
    (calculate_drain_current 3 5 siMaterial defaultGeometry).1
        = 255507/20000000 ∧
      ¬ |(calculate_drain_current 3 5 siMaterial defaultGeometry).1
          - 1243/1000000| ≤ 1/100 := by
  have h : (calculate_drain_current 3 5 siMaterial defaultGeometry).1
      = 255507/20000000 := by
    simp only [calculate_drain_current, siMaterial, defaultGeometry, max_def]
    norm_num
  refine ⟨h, ?_⟩
  rw [h, abs_le, not_and_or]
  right
  norm_num

/-- Claim C4, amended: with the Si defaults at V_gs = 3 V, V_ds = 5 V the
basic evaluator returns V_ds_sat = 2.3 V, region Saturation, and
I_d = 1.277535e-2 A (≈ 12.8 mA). -/
theorem basic_example1_saturation :
    calculate_drain_current 3 5 siMaterial defaultGeometry
        = (255507/20000000, Region.saturation) ∧
      max ((3:ℚ) - defaultGeometry.V_th) 0 = 23/10 := by
  constructor
  · simp only [calculate_drain_current, siMaterial, defaultGeometry, max_def]
    norm_num
  · simp only [defaultGeometry, max_def]
    norm_num

/-- The effective (DIBL-corrected, temperature-corrected) threshold voltage
computed by both extended variants before region classification:
`V_th_eff = (V_th0 − 0.002·(T−300)) − η·V_ds` with `T` the Kelvin
temperature. -/
def effective_threshold (V_ds temperature : ℚ) (geometry : Geometry) : ℚ :=
  dibl_effect (temperature_dependent_vth geometry.V_th (temperature + 5463/20))
    V_ds geometry.length

/-- `E_c·L` for the velocity-saturation variant: the critical field
`E_c = (v_sat·1e-2)/μ(T)` times the channel length. -/
def ecL (material : Material) (temperature : ℚ) (geometry : Geometry) : ℚ :=
  material.saturation_velocity * (1/100) /
    temperature_dependent_mobility material (temperature + 5463/20) *
    geometry.length

/-- The drain current of the extended simple variant as the amended claim
C2 states it: the temperature-corrected mobility `μ_300·(300/T)²` is used
directly in cm²/V·s — no 1e-4 SI conversion appears anywhere. -/
def extended_simple_current_spec (V_gs V_ds : ℚ) (material : Material)
    (geometry : Geometry) (temperature : ℚ) : ℚ :=
  if V_gs ≤ dibl_effect
      (temperature_dependent_vth geometry.V_th (temperature + 5463/20))
      V_ds geometry.length then 0
  else if V_ds < V_gs - dibl_effect
      (temperature_dependent_vth geometry.V_th (temperature + 5463/20))
      V_ds geometry.length then
    temperature_dependent_mobility material (temperature + 5463/20) *
      (material.dielectric_constant * epsilon_0 / geometry.oxide_thickness) *
      (geometry.width / geometry.length) *
      ((V_gs - dibl_effect
          (temperature_dependent_vth geometry.V_th (temperature + 5463/20))
          V_ds geometry.length) * V_ds - (1/2) * V_ds^2)
  else
    ((1/2) * temperature_dependent_mobility material (temperature + 5463/20) *
      (material.dielectric_constant * epsilon_0 / geometry.oxide_thickness) *
      (geometry.width / geometry.length) *
      (V_gs - dibl_effect
        (temperature_dependent_vth geometry.V_th (temperature + 5463/20))
        V_ds geometry.length)^2) *
    (1 + channel_length_modulation geometry.length V_ds *
      (V_ds - (V_gs - dibl_effect
        (temperature_dependent_vth geometry.V_th (temperature + 5463/20))
        V_ds geometry.length)))

/-- Claim C2, counterexample: at V_gs = 2, V_ds = 1, temperature 26.85 °C
(T = 300 K, so the temperature factor is 1) with the test material
(μ_300 = 1000, C_ox = 2, W/L = 2) the simple variant is in the linear
region with current 3600 A, whereas the claimed μ_SI formula
(mobility converted by 1e-4) gives 9/25 = 0.36 A; the two differ. -/
theorem extended_current_not_si_mobility :
    (calculate_with_short_channel_effects_simple 2 1 testMaterial
        testGeometry (2685/100)).2.1 = Region.linear ∧
      (calculate_with_short_channel_effects_simple 2 1 testMaterial
        testGeometry (2685/100)).1 = 3600 ∧
      temperature_dependent_mobility testMaterial (2685/100 + 5463/20) *
          (1/10000) *
          (testMaterial.dielectric_constant * epsilon_0 /
            testGeometry.oxide_thickness) *
          (testGeometry.width / testGeometry.length) *
          ((2 - 6/10) * 1 - (1/2) * 1^2) = 9/25 ∧
      (3600 : ℚ) ≠ 9/25 := by
  refine ⟨?_, ?_, ?_, by norm_num⟩
  · norm_num [calculate_with_short_channel_effects_simple, dibl_effect,
      temperature_dependent_vth, temperature_dependent_mobility,
      channel_length_modulation, epsilon_0, testMaterial, testGeometry]
  · norm_num [calculate_with_short_channel_effects_simple, dibl_effect,
      temperature_dependent_vth, temperature_dependent_mobility,
      channel_length_modulation, epsilon_0, testMaterial, testGeometry]
  · norm_num [temperature_dependent_mobility, epsilon_0, testMaterial,
      testGeometry]

/-- The drain current of the velocity-saturation variant as the amended
claim C2 states it: the unconverted mobility `μ_300·(300/T)²` (cm²/V·s)
is used both in the current prefactor and inside
`E_c·L = (v_sat·1e-2)/μ(T)·L`. -/
def extended_velsat_current_spec (V_gs V_ds : ℚ) (material : Material)
    (geometry : Geometry) (temperature : ℚ) : ℚ :=
  if V_gs ≤ effective_threshold V_ds temperature geometry then 0
  else if V_ds < (V_gs - effective_threshold V_ds temperature geometry) /
      (1 + (V_gs - effective_threshold V_ds temperature geometry) /
        ecL material temperature geometry) then
    temperature_dependent_mobility material (temperature + 5463/20) *
        (material.dielectric_constant * epsilon_0 /
          geometry.oxide_thickness) * geometry.width / geometry.length *
        ((V_gs - effective_threshold V_ds temperature geometry) * V_ds -
          (1/2) * V_ds^2) /
      (1 + V_ds / ecL material temperature geometry)
  else
    ((1/2) * temperature_dependent_mobility material (temperature + 5463/20) *
        (material.dielectric_constant * epsilon_0 /
          geometry.oxide_thickness) * geometry.width / geometry.length *
        (V_gs - effective_threshold V_ds temperature geometry)^2 /
      (1 + (V_gs - effective_threshold V_ds temperature geometry) /
        ecL material temperature geometry)) *
    (1 + channel_length_modulation geometry.length V_ds *
      (V_ds - (V_gs - effective_threshold V_ds temperature geometry) /
        (1 + (V_gs - effective_threshold V_ds temperature geometry) /
          ecL material temperature geometry)))

/-- Claim C2, amended: both extended variants' drain currents use the
temperature-corrected mobility `μ_300·(300/T)²` directly in cm²/V·s (no
1e-4 SI conversion) in all three regions, together with
`C_ox = ε_r·ε_0/t_ox`, the DIBL-corrected threshold and the CLM
multiplier; the velocity-saturation variant also uses the unconverted
mobility in `E_c`. -/
theorem extended_current_unconverted_mobility (V_gs V_ds temperature : ℚ)
    (m : Material) (g : Geometry) :
    (calculate_with_short_channel_effects_simple V_gs V_ds m g
        temperature).1
      = extended_simple_current_spec V_gs V_ds m g temperature ∧
    (calculate_with_short_channel_effects_velsat V_gs V_ds m g
        temperature).1
      = extended_velsat_current_spec V_gs V_ds m g temperature := by
  constructor
  · simp only [calculate_with_short_channel_effects_simple,
      extended_simple_current_spec]
    split_ifs <;> rfl
  · simp only [calculate_with_short_channel_effects_velsat,
      extended_velsat_current_spec, effective_threshold, ecL]
    split_ifs <;> rfl

/-- Claim C3, counterexample: for the test material and geometry at
V_gs = 2, V_ds = 1, calling the simple variant without a temperature
argument (Python default `temperature=300`) differs from calling it with
27: already the reported effective thresholds are 537/10000 and
5997/10000. -/
theorem extended_default_not_27 :
    calculate_with_short_channel_effects_simple_default 2 1 testMaterial
        testGeometry
      ≠ calculate_with_short_channel_effects_simple 2 1 testMaterial
        testGeometry 27 := by
  intro h
  have h2 := congrArg (fun r => r.2.2.effective_vth) h
  revert h2
  norm_num [calculate_with_short_channel_effects_simple_default,
    calculate_with_short_channel_effects_simple, dibl_effect,
    temperature_dependent_vth, temperature_dependent_mobility,
    channel_length_modulation, epsilon_0, testMaterial, testGeometry]

/-- Claim C3, amended: calling either extended variant without an explicit
temperature argument is identical to calling it with temperature 300 (the
Python default), so the default Kelvin temperature used in preprocessing
is 300 + 273.15 = 573.15 K. -/
theorem extended_default_temperature_is_300 (V_gs V_ds : ℚ) (m : Material)
    (g : Geometry) :
    calculate_with_short_channel_effects_simple_default V_gs V_ds m g
        = calculate_with_short_channel_effects_simple V_gs V_ds m g 300 ∧
      calculate_with_short_channel_effects_velsat_default V_gs V_ds m g
        = calculate_with_short_channel_effects_velsat V_gs V_ds m g 300 ∧
      (300 : ℚ) + 5463/20 = 57315/100 :=
  ⟨rfl, rfl, by norm_num⟩

/-- Claim C5, counterexample: at the cut-off input V_gs = 0, V_ds = 0 the
simple variant reports a velocity-saturation factor of 0.8, not the 0 the
claim requires outside conduction. -/
theorem simple_diag_factor_not_zero_in_cutoff :
    (calculate_with_short_channel_effects_simple 0 0 testMaterial
        testGeometry (2685/100)).2.1 = Region.cutoff ∧
      (calculate_with_short_channel_effects_simple 0 0 testMaterial
        testGeometry (2685/100)).2.2.velocity_saturation_factor = 8/10 ∧
      ((8:ℚ)/10) ≠ 0 := by
  refine ⟨?_, ?_, by norm_num⟩ <;>
    norm_num [calculate_with_short_channel_effects_simple, dibl_effect,
      temperature_dependent_vth, temperature_dependent_mobility,
      channel_length_modulation, epsilon_0, testMaterial, testGeometry]

/-- Claim C5, amended: both extended variants report the effective
threshold voltage and the DIBL shift `V_th_eff − V_th0`; the
velocity-saturation variant's factor is `V_ds_sat / V_gt` in conduction
and 0 otherwise, while the simple variant always reports the constant
0.8. -/
theorem extended_diagnostics_shape (V_gs V_ds temperature : ℚ)
    (m : Material) (g : Geometry) :
    (calculate_with_short_channel_effects_velsat V_gs V_ds m g
        temperature).2.2 =
      ⟨effective_threshold V_ds temperature g,
        effective_threshold V_ds temperature g - g.V_th,
        if V_gs ≤ effective_threshold V_ds temperature g then 0
        else ((V_gs - effective_threshold V_ds temperature g) /
            (1 + (V_gs - effective_threshold V_ds temperature g) /
              ecL m temperature g)) /
          (V_gs - effective_threshold V_ds temperature g)⟩ ∧
    (calculate_with_short_channel_effects_simple V_gs V_ds m g
        temperature).2.2 =
      ⟨effective_threshold V_ds temperature g,
        effective_threshold V_ds temperature g - g.V_th, 8/10⟩ := by
  constructor
  · simp only [calculate_with_short_channel_effects_velsat,
      effective_threshold, ecL]
    split_ifs <;> rfl
  · simp only [calculate_with_short_channel_effects_simple,
      effective_threshold]
    split_ifs <;> rfl

/-- Claim C9, counterexample: with the Silicon defaults (breakdown field
0.3 MV/cm) the breakdown-voltage function applied to thickness
1e-5 (= 100 nm expressed in cm) returns 3e-4 V, not the claimed 3.0 V:
the code has an extra 1e-4 factor on the thickness argument. -/
theorem breakdown_voltage_at_1e5_cm :
    calculate_breakdown_voltage siMaterial (1/100000) = 3/10000 ∧
      ((3:ℚ)/10000) ≠ 3 := by
  constructor
  · norm_num [calculate_breakdown_voltage, siMaterial]
  · norm_num

/-- Claim C9, amended: the breakdown-voltage estimate is the pure linear
scaling `V_br = (E_breakdown·1e6) · thickness · 1e-4` with no region
logic, i.e. the thickness argument is interpreted in micrometres
(µm → cm conversion); for the Silicon defaults and thickness
100 nm = 0.1 µm the call with argument 0.1 returns 3.0 V. -/
theorem breakdown_voltage_linear_scaling (m : Material) (t : ℚ) :
    calculate_breakdown_voltage m t
        = m.breakdown_field_value * 1000000 * t * (1/10000) ∧
      calculate_breakdown_voltage siMaterial (1/10) = 3 :=
  ⟨rfl, by norm_num [calculate_breakdown_voltage, siMaterial]⟩

/-- Claim C10: the basic evaluator reads only `electron_mobility_value`
from the material record, so two materials agreeing on that field yield
identical results for all voltages and geometries. -/
theorem basic_depends_only_on_mobility (V_gs V_ds : ℚ) (m1 m2 : Material)
    (g : Geometry)
    (h : m1.electron_mobility_value = m2.electron_mobility_value) :
    calculate_drain_current V_gs V_ds m1 g
      = calculate_drain_current V_gs V_ds m2 g := by
  simp only [calculate_drain_current, h]

/-- A material sharing `testMaterial`'s mobility but differing in every
other field. -/
def altMaterial : Material where
  bandgap_value := 9
  electron_mobility_value := 1000
  thermal_conductivity_value := 7
  breakdown_field_value := 5
  dielectric_constant := 13
  saturation_velocity := 123456

theorem basic_depends_only_on_mobility_witness :
    testMaterial.electron_mobility_value
        = altMaterial.electron_mobility_value ∧
      calculate_drain_current 3 5 testMaterial defaultGeometry
        = calculate_drain_current 3 5 altMaterial defaultGeometry :=
  ⟨rfl, basic_depends_only_on_mobility 3 5 testMaterial altMaterial
    defaultGeometry rfl⟩

/-- The linear-region current expression of the basic evaluator
(`physics_engine.py`, the `V_ds < V_ds_sat` branch). -/
def basic_linear_current (V_gs V_ds : ℚ) (m : Material) (g : Geometry) : ℚ :=
  m.electron_mobility_value * (1/10000) * g.C_ox * (g.width / g.length) *
    ((V_gs - g.V_th) * V_ds - (1/2) * V_ds^2)

/-- The saturation-region current expression of the basic evaluator. -/
def basic_saturation_current (V_gs : ℚ) (m : Material) (g : Geometry) : ℚ :=
  (1/2) * (m.electron_mobility_value * (1/10000)) * g.C_ox *
    (g.width / g.length) * (V_gs - g.V_th)^2

/-- The linear-region current of the simple extended variant
(`app_enhanced.py`), as a function of the precomputed quantities. -/
def simple_linear_current (mu C_ox W L V_gt V_ds : ℚ) : ℚ :=
  mu * C_ox * (W/L) * (V_gt * V_ds - (1/2) * V_ds^2)

/-- The saturation-region current of the simple extended variant, with the
CLM multiplier. -/
def simple_saturation_current (mu C_ox W L V_gt lambda_clm V_ds V_ds_sat : ℚ) :
    ℚ :=
  ((1/2) * mu * C_ox * (W/L) * V_gt^2) * (1 + lambda_clm * (V_ds - V_ds_sat))

/-- The linear-region current of the velocity-saturation variant
(`modules/advanced_physics.py`): divided by `1 + V_ds/(E_c·L)`. -/
def velsat_linear_current (mu C_ox W L V_gt E_c V_ds : ℚ) : ℚ :=
  (mu * C_ox * W / L) * (V_gt * V_ds - (1/2) * V_ds^2) /
    (1 + V_ds / (E_c * L))

/-- The saturation-region current of the velocity-saturation variant:
divided by `1 + V_gt/(E_c·L)` before the CLM multiplier. -/
def velsat_saturation_current
    (mu C_ox W L V_gt E_c lambda_clm V_ds V_ds_sat : ℚ) : ℚ :=
  ((1/2) * mu * C_ox * W / L * V_gt^2 / (1 + V_gt / (E_c * L))) *
    (1 + lambda_clm * (V_ds - V_ds_sat))

/-- Claim C6: at the linear/saturation boundary the two current formulas
agree exactly — for the basic evaluator at `V_ds = V_gs − V_th` (where the
evaluator itself lands in the saturation branch), for the simple extended
variant at `V_ds = V_ds_sat = V_gt` (CLM multiplier 1), and for the
velocity-saturation variant at `V_ds = V_ds_sat = V_gt/(1 + V_gt/(E_c·L))`
with the divided formulas. -/
theorem boundary_continuity (V_gs : ℚ) (m : Material) (g : Geometry)
    (mu C_ox W L V_gt lambda_clm E_c : ℚ) (hb : g.V_th < V_gs)
    (hgt : 0 ≤ V_gt) (hEc : 0 < E_c) (hL : 0 < L) :
    basic_linear_current V_gs (V_gs - g.V_th) m g
        = basic_saturation_current V_gs m g ∧
      calculate_drain_current V_gs (V_gs - g.V_th) m g
        = (basic_saturation_current V_gs m g, Region.saturation) ∧
      simple_linear_current mu C_ox W L V_gt V_gt
        = simple_saturation_current mu C_ox W L V_gt lambda_clm V_gt V_gt ∧
      velsat_linear_current mu C_ox W L V_gt E_c
          (V_gt / (1 + V_gt / (E_c * L)))
        = velsat_saturation_current mu C_ox W L V_gt E_c lambda_clm
            (V_gt / (1 + V_gt / (E_c * L)))
            (V_gt / (1 + V_gt / (E_c * L))) := by
  have hx : (0:ℚ) ≤ V_gs - g.V_th := le_of_lt (sub_pos.mpr hb)
  refine ⟨?_, ?_, ?_, ?_⟩
  · simp only [basic_linear_current, basic_saturation_current]
    ring
  · simp only [calculate_drain_current, basic_saturation_current]
    rw [if_neg (not_le.mpr hb), max_eq_left hx, if_neg (lt_irrefl _)]
  · simp only [simple_linear_current, simple_saturation_current]
    ring
  · have hc : (0:ℚ) < E_c * L := mul_pos hEc hL
    have hk : (0:ℚ) < 1 + V_gt / (E_c * L) := by positivity
    have hkc : (0:ℚ) < 1 + V_gt / (1 + V_gt / (E_c * L)) / (E_c * L) := by
      positivity
    simp only [velsat_linear_current, velsat_saturation_current]
    field_simp
    ring

theorem boundary_continuity_witness :
    (testGeometry.V_th < 1 ∧ (0:ℚ) ≤ 1 ∧ (0:ℚ) < 1) ∧
      (basic_linear_current 1 (1 - testGeometry.V_th) testMaterial
            testGeometry
          = basic_saturation_current 1 testMaterial testGeometry ∧
        calculate_drain_current 1 (1 - testGeometry.V_th) testMaterial
            testGeometry
          = (basic_saturation_current 1 testMaterial testGeometry,
              Region.saturation) ∧
        simple_linear_current 1 1 1 1 1 1
          = simple_saturation_current 1 1 1 1 1 1 1 1 ∧
        velsat_linear_current 1 1 1 1 1 1 (1 / (1 + 1 / (1 * 1)))
          = velsat_saturation_current 1 1 1 1 1 1 1 (1 / (1 + 1 / (1 * 1)))
              (1 / (1 + 1 / (1 * 1)))) :=
  ⟨⟨by norm_num [testGeometry], by norm_num, by norm_num⟩,
    boundary_continuity 1 testMaterial testGeometry 1 1 1 1 1 1 1
      (by norm_num [testGeometry]) (by norm_num) (by norm_num) (by norm_num)⟩

/-- Monotonicity of the basic evaluator in `V_ds`: helper for claim C7. -/
lemma basic_current_mono_aux (V_gs V1 V2 : ℚ) (m : Material) (g : Geometry)
    (hmu : 0 < m.electron_mobility_value) (hC : 0 < g.C_ox)
    (hW : 0 < g.width) (hL : 0 < g.length) (hth : g.V_th < V_gs)
    (h1 : 0 ≤ V1) (h12 : V1 ≤ V2) :
    (calculate_drain_current V_gs V1 m g).1
      ≤ (calculate_drain_current V_gs V2 m g).1 := by
  have hgt : (0:ℚ) < V_gs - g.V_th := sub_pos.mpr hth
  have hK : (0:ℚ) < m.electron_mobility_value * (1/10000) * g.C_ox *
      (g.width / g.length) := by positivity
  simp only [calculate_drain_current]
  rw [if_neg (not_le.mpr hth), if_neg (not_le.mpr hth), max_eq_left hgt.le]
  split_ifs with hc1 hc2 hc2
  · dsimp only
    nlinarith [mul_nonneg (mul_nonneg hK.le (sub_nonneg.mpr h12))
      (show (0:ℚ) ≤ V_gs - g.V_th - (V1 + V2)/2 by linarith)]
  · dsimp only
    nlinarith [mul_nonneg hK.le (sq_nonneg (V_gs - g.V_th - V1))]
  · exact absurd hc2 (not_lt.mpr ((not_lt.mp hc1).trans h12))
  · exact le_rfl

/-- Linear–linear case of the simple extended variant's monotonicity:
`K` stands for `μ·C_ox·(W/L)`, `e` for the (equal) DIBL and CLM
coefficients, `Vg` for `V_gs − V_th(T)`. -/
lemma simple_ll_helper (K e Vg V1 V2 : ℚ) (hK : 0 ≤ K) (he : 0 < e)
    (h1 : 0 ≤ V1) (h12 : V1 ≤ V2)
    (ha : V1 < Vg + e*V1) (hb : V2 < Vg + e*V2) :
    K * ((Vg + e*V1)*V1 - (1/2)*V1^2) ≤ K * ((Vg + e*V2)*V2 - (1/2)*V2^2) := by
  have h2 : (0:ℚ) ≤ V2 := h1.trans h12
  have hbr : (0:ℚ) ≤ Vg + (e - 1/2)*(V1 + V2) := by
    nlinarith [mul_nonneg he.le h1, mul_nonneg he.le h2]
  nlinarith [mul_nonneg (mul_nonneg hK (sub_nonneg.mpr h12)) hbr]

/-- Linear–saturation case of the simple extended variant's
monotonicity. -/
lemma simple_ls_helper (K e Vg V1 V2 : ℚ) (hK : 0 ≤ K) (he : 0 < e)
    (hVg : 0 < Vg) (h1 : 0 ≤ V1) (h12 : V1 ≤ V2)
    (hb : Vg + e*V2 ≤ V2) :
    K * ((Vg + e*V1)*V1 - (1/2)*V1^2)
      ≤ ((1/2)*K*(Vg + e*V2)^2) * (1 + e*(V2 - (Vg + e*V2))) := by
  have h2 : (0:ℚ) ≤ V2 := h1.trans h12
  have hG1 : (0:ℚ) ≤ Vg + e*V1 := by nlinarith [mul_nonneg he.le h1]
  have hG12 : Vg + e*V1 ≤ Vg + e*V2 := by
    nlinarith [mul_nonneg he.le (sub_nonneg.mpr h12)]
  have s1 : K * ((Vg + e*V1)*V1 - (1/2)*V1^2)
      ≤ (1/2)*K*(Vg + e*V1)^2 := by
    nlinarith [mul_nonneg hK (sq_nonneg (Vg + e*V1 - V1))]
  have s2 : (1/2)*K*(Vg + e*V1)^2 ≤ (1/2)*K*(Vg + e*V2)^2 := by
    nlinarith [mul_nonneg hK (mul_nonneg (sub_nonneg.mpr hG12)
      (show (0:ℚ) ≤ (Vg + e*V1) + (Vg + e*V2) by linarith))]
  have s3 : (1/2)*K*(Vg + e*V2)^2
      ≤ ((1/2)*K*(Vg + e*V2)^2) * (1 + e*(V2 - (Vg + e*V2))) := by
    nlinarith [mul_nonneg (mul_nonneg hK (sq_nonneg (Vg + e*V2)))
      (mul_nonneg he.le (sub_nonneg.mpr hb))]
  linarith

/-- Saturation–linear case is impossible for `V1 ≤ V2`. -/
lemma simple_sl_helper (e Vg V1 V2 : ℚ) (he : 0 < e) (hVg : 0 < Vg)
    (h1 : 0 ≤ V1) (h12 : V1 ≤ V2)
    (ha : Vg + e*V1 ≤ V1) (hb : V2 < Vg + e*V2) : False := by
  rcases le_or_lt e 1 with he1 | he1
  · nlinarith [mul_nonneg (sub_nonneg.mpr h12) (sub_nonneg.mpr he1)]
  · nlinarith [mul_nonneg h1 (sub_nonneg.mpr he1.le)]

/-- Saturation–saturation case of the simple extended variant's
monotonicity. -/
lemma simple_ss_helper (K e Vg V1 V2 : ℚ) (hK : 0 ≤ K) (he : 0 < e)
    (hVg : 0 < Vg) (h1 : 0 ≤ V1) (h12 : V1 ≤ V2)
    (ha : Vg + e*V1 ≤ V1) (hb : Vg + e*V2 ≤ V2) :
    ((1/2)*K*(Vg + e*V1)^2) * (1 + e*(V1 - (Vg + e*V1)))
      ≤ ((1/2)*K*(Vg + e*V2)^2) * (1 + e*(V2 - (Vg + e*V2))) := by
  have h1e : e < 1 := by
    by_contra hcon
    push_neg at hcon
    nlinarith [mul_nonneg (sub_nonneg.mpr hcon) h1]
  have hG1 : (0:ℚ) ≤ Vg + e*V1 := by nlinarith [mul_nonneg he.le h1]
  have hG12 : Vg + e*V1 ≤ Vg + e*V2 := by
    nlinarith [mul_nonneg he.le (sub_nonneg.mpr h12)]
  have hM1 : (1:ℚ) ≤ 1 + e*(V1 - (Vg + e*V1)) := by
    nlinarith [mul_nonneg he.le (sub_nonneg.mpr ha)]
  have hM12 : 1 + e*(V1 - (Vg + e*V1)) ≤ 1 + e*(V2 - (Vg + e*V2)) := by
    nlinarith [mul_nonneg (mul_nonneg he.le (sub_nonneg.mpr h1e.le))
      (sub_nonneg.mpr h12)]
  have habs : (Vg + e*V1)^2 ≤ (Vg + e*V2)^2 := by
    nlinarith [mul_nonneg (sub_nonneg.mpr hG12)
      (show (0:ℚ) ≤ (Vg + e*V1) + (Vg + e*V2) by linarith)]
  nlinarith [mul_nonneg hK (mul_nonneg (sq_nonneg (Vg + e*V2))
      (sub_nonneg.mpr hM12)),
    mul_nonneg hK (mul_nonneg (show (0:ℚ) ≤ 1 + e*(V1 - (Vg + e*V1)) by
      linarith) (sub_nonneg.mpr habs))]

/-- Monotonicity of the extended simple variant in `V_ds`: helper for
claim C7. -/
lemma simple_current_mono_aux (V_gs V1 V2 temperature : ℚ) (m : Material)
    (g : Geometry) (hmu : 0 < m.electron_mobility_value)
    (hdi : 0 < m.dielectric_constant) (htox : 0 < g.oxide_thickness)
    (hW : 0 < g.width) (hL : 0 < g.length)
    (hth : temperature_dependent_vth g.V_th (temperature + 5463/20) < V_gs)
    (h1 : 0 ≤ V1) (h12 : V1 ≤ V2) :
    (calculate_with_short_channel_effects_simple V_gs V1 m g temperature).1
      ≤ (calculate_with_short_channel_effects_simple V_gs V2 m g
          temperature).1 := by
  have h2 : (0:ℚ) ≤ V2 := h1.trans h12
  simp only [calculate_with_short_channel_effects_simple, dibl_effect,
    channel_length_modulation]
  set T := temperature + 5463/20 with hTdef
  set mu := temperature_dependent_mobility m T with hmudef
  set vt := temperature_dependent_vth g.V_th T with hvtdef
  set e := (1:ℚ)/10 / (g.length * 1000000) with hedef
  set C := m.dielectric_constant * epsilon_0 / g.oxide_thickness with hCdef
  have he : 0 < e := by rw [hedef]; positivity
  have hmuT : 0 ≤ mu := by
    rw [hmudef]
    simp only [temperature_dependent_mobility]
    positivity
  have heps : (0:ℚ) < epsilon_0 := by norm_num [epsilon_0]
  have hCox : 0 < C := by rw [hCdef]; positivity
  have hgt0 : 0 < V_gs - vt := sub_pos.mpr hth
  have hK : (0:ℚ) ≤ mu * C * (g.width / g.length) := by positivity
  have hcond1 : ¬ V_gs ≤ vt - e * V1 := by
    push_neg
    nlinarith [mul_nonneg he.le h1]
  have hcond2 : ¬ V_gs ≤ vt - e * V2 := by
    push_neg
    nlinarith [mul_nonneg he.le h2]
  rw [if_neg hcond1, if_neg hcond2]
  split_ifs with hc1 hc2 hc2
  · dsimp only
    have := simple_ll_helper (mu * C * (g.width / g.length)) e (V_gs - vt)
      V1 V2 hK he h1 h12 (by linarith) (by linarith)
    linarith
  · dsimp only
    have := simple_ls_helper (mu * C * (g.width / g.length)) e (V_gs - vt)
      V1 V2 hK he hgt0 h1 h12 (by linarith)
    linarith
  · exact absurd (simple_sl_helper e (V_gs - vt) V1 V2 he hgt0 h1 h12
      (by linarith) (by linarith)) not_false
  · dsimp only
    have := simple_ss_helper (mu * C * (g.width / g.length)) e (V_gs - vt)
      V1 V2 hK he hgt0 h1 h12 (by linarith) (by linarith)
    linarith

/-- Claim C7: for fixed `V_gs` above the relevant threshold and
`0 ≤ V_ds1 ≤ V_ds2` the drain current is non-decreasing in `V_ds`, for the
basic evaluator (rising in the linear region, flat in saturation) and for
the extended simple variant (rising in the linear region, rising slightly
in saturation via the CLM term), under the positivity invariants on the
material and geometry. -/
theorem drain_current_monotone_in_vds (V_gs V1 V2 temperature : ℚ)
    (m : Material) (g : Geometry) (hmu : 0 < m.electron_mobility_value)
    (hC : 0 < g.C_ox) (hdi : 0 < m.dielectric_constant)
    (htox : 0 < g.oxide_thickness) (hW : 0 < g.width) (hL : 0 < g.length)
    (hthb : g.V_th < V_gs)
    (hthe : temperature_dependent_vth g.V_th (temperature + 5463/20) < V_gs)
    (h1 : 0 ≤ V1) (h12 : V1 ≤ V2) :
    (calculate_drain_current V_gs V1 m g).1
        ≤ (calculate_drain_current V_gs V2 m g).1 ∧
      (calculate_with_short_channel_effects_simple V_gs V1 m g
          temperature).1
        ≤ (calculate_with_short_channel_effects_simple V_gs V2 m g
            temperature).1 :=
  ⟨basic_current_mono_aux V_gs V1 V2 m g hmu hC hW hL hthb h1 h12,
    simple_current_mono_aux V_gs V1 V2 temperature m g hmu hdi htox hW hL
      hthe h1 h12⟩

theorem drain_current_monotone_in_vds_witness :
    ((0:ℚ) < testMaterial.electron_mobility_value ∧
        (0:ℚ) < testGeometry.C_ox ∧
        testGeometry.V_th < 3 ∧
        temperature_dependent_vth testGeometry.V_th (2685/100 + 5463/20)
          < 3 ∧ (0:ℚ) ≤ 1 ∧ (1:ℚ) ≤ 5) ∧
      ((calculate_drain_current 3 1 testMaterial testGeometry).1
          ≤ (calculate_drain_current 3 5 testMaterial testGeometry).1 ∧
        (calculate_with_short_channel_effects_simple 3 1 testMaterial
            testGeometry (2685/100)).1
          ≤ (calculate_with_short_channel_effects_simple 3 5 testMaterial
              testGeometry (2685/100)).1) :=
  ⟨⟨by norm_num [testMaterial], by norm_num [testGeometry],
      by norm_num [testGeometry],
      by norm_num [temperature_dependent_vth, testGeometry],
      by norm_num, by norm_num⟩,
    drain_current_monotone_in_vds 3 1 5 (2685/100) testMaterial testGeometry
      (by norm_num [testMaterial]) (by norm_num [testGeometry])
      (by norm_num [testMaterial]) (by norm_num [testGeometry])
      (by norm_num [testGeometry]) (by norm_num [testGeometry])
      (by norm_num [testGeometry])
      (by norm_num [temperature_dependent_vth, testGeometry])
      (by norm_num) (by norm_num)⟩

/-- Guarded division: mirrors Python's `/`, which raises
`ZeroDivisionError` on a zero denominator; the `none` result is the error
branch of the embedding. -/
def div? (a b : ℚ) : Option ℚ :=
  if b = 0 then none else some (a / b)

/-- The basic evaluator with every division guarded: the only division is
`W/L`, performed inside the linear and saturation branches. -/
def calculate_drain_current_checked (V_gs V_ds : ℚ) (material : Material)
    (geometry : Geometry) : Option (ℚ × Region) :=
  let mu_n_si := material.electron_mobility_value * (1/10000)
  let V_ds_sat := max (V_gs - geometry.V_th) 0
  if V_gs ≤ geometry.V_th then
    some (0, Region.cutoff)
  else if V_ds < V_ds_sat then
    (div? geometry.width geometry.length).map fun wl =>
      (mu_n_si * geometry.C_ox * wl *
        ((V_gs - geometry.V_th) * V_ds - (1/2) * V_ds^2), Region.linear)
  else
    (div? geometry.width geometry.length).map fun wl =>
      ((1/2) * mu_n_si * geometry.C_ox * wl * (V_gs - geometry.V_th)^2,
        Region.saturation)

/-- The extended simple variant with every division guarded, in source
order: `300/T`, `η`, `λ`, `C_ox`, then `W/L` in the conduction branches. -/
def calculate_with_short_channel_effects_simple_checked (V_gs V_ds : ℚ)
    (material : Material) (geometry : Geometry) (temperature : ℚ) :
    Option (ℚ × Region × ExtDiagnostics) := do
  let T := temperature + 5463/20
  let r ← div? 300 T
  let mu_n := material.electron_mobility_value * r^2
  let V_th := temperature_dependent_vth geometry.V_th T
  let eta ← div? (1/10) (geometry.length * 1000000)
  let V_th_sc := V_th - eta * V_ds
  let lambda_clm ← div? (1/10) (geometry.length * 1000000)
  let C_ox ← div? (material.dielectric_constant * epsilon_0)
    geometry.oxide_thickness
  if V_gs ≤ V_th_sc then
    some (0, Region.cutoff, ⟨V_th_sc, V_th_sc - geometry.V_th, 8/10⟩)
  else
    let V_gt := V_gs - V_th_sc
    if V_ds < V_gt then do
      let wl ← div? geometry.width geometry.length
      some (mu_n * C_ox * wl * ((V_gs - V_th_sc) * V_ds - (1/2) * V_ds^2),
        Region.linear, ⟨V_th_sc, V_th_sc - geometry.V_th, 8/10⟩)
    else do
      let wl ← div? geometry.width geometry.length
      some ((1/2) * mu_n * C_ox * wl * (V_gs - V_th_sc)^2 *
          (1 + lambda_clm * (V_ds - V_gt)),
        Region.saturation, ⟨V_th_sc, V_th_sc - geometry.V_th, 8/10⟩)

/-- The conduction branch of the guarded velocity-saturation variant,
taking the already-computed preamble quantities: in source order,
`V_gt/(E_c·L)`, `V_gt/(1 + V_gt/(E_c·L))`, the diagnostics ratio, and the
region-specific current divisions. -/
def velsat_conduction_checked (V_gs V_ds V_th_sc mu_n C_ox lambda_clm
    E_c : ℚ) (geometry : Geometry) : Option (ℚ × Region × ExtDiagnostics) := do
  let V_gt := V_gs - V_th_sc
  let q1 ← div? V_gt (E_c * geometry.length)
  let V_ds_sat ← div? V_gt (1 + q1)
  let factor ← div? V_ds_sat (V_gs - V_th_sc)
  if V_ds < V_ds_sat then do
    let a ← div? (mu_n * C_ox * geometry.width) geometry.length
    let q2 ← div? V_ds (E_c * geometry.length)
    let I_d ← div? (a * (V_gt * V_ds - (1/2) * V_ds^2)) (1 + q2)
    some (I_d, Region.linear,
      ⟨V_th_sc, V_th_sc - geometry.V_th, factor⟩)
  else do
    let a ← div? ((1/2) * mu_n * C_ox * geometry.width) geometry.length
    let I_d_sat ← div? (a * V_gt^2) (1 + q1)
    some (I_d_sat * (1 + lambda_clm * (V_ds - V_ds_sat)),
      Region.saturation, ⟨V_th_sc, V_th_sc - geometry.V_th, factor⟩)

/-- The velocity-saturation variant with every division guarded, in source
order: `300/T`, `η`, `λ`, `C_ox`, `E_c = v_sat/μ`, then the conduction
branch's divisions. -/
def calculate_with_short_channel_effects_velsat_checked (V_gs V_ds : ℚ)
    (material : Material) (geometry : Geometry) (temperature : ℚ) :
    Option (ℚ × Region × ExtDiagnostics) := do
  let T := temperature + 5463/20
  let r ← div? 300 T
  let mu_n := material.electron_mobility_value * r^2
  let V_th := temperature_dependent_vth geometry.V_th T
  let eta ← div? (1/10) (geometry.length * 1000000)
  let V_th_sc := V_th - eta * V_ds
  let lambda_clm ← div? (1/10) (geometry.length * 1000000)
  let C_ox ← div? (material.dielectric_constant * epsilon_0)
    geometry.oxide_thickness
  let E_c ← div? (material.saturation_velocity * (1/100)) mu_n
  if V_gs ≤ V_th_sc then
    some (0, Region.cutoff, ⟨V_th_sc, V_th_sc - geometry.V_th, 0⟩)
  else
    velsat_conduction_checked V_gs V_ds V_th_sc mu_n C_ox lambda_clm E_c
      geometry

/-- Material for the C8 counterexample: mobility 1, dielectric constant 1,
saturation velocity 100, all fields strictly positive. -/
def c8Material : Material where
  bandgap_value := 1
  electron_mobility_value := 1
  thermal_conductivity_value := 1
  breakdown_field_value := 1
  dielectric_constant := 1
  saturation_velocity := 100

/-- Geometry for the C8 counterexample: every field strictly positive
(L = W = t_ox = C_ox = 1, V_th = 0.7). -/
def c8Geometry : Geometry where
  length := 1
  width := 1
  oxide_thickness := 1
  C_ox := 1
  V_th := 7/10

/-- The conduction branch of the guarded velocity-saturation variant never
hits a zero divisor when the overdrive is positive, `E_c·L > 0`, `L ≠ 0`
and `V_ds ≥ 0`. -/
lemma velsat_conduction_checked_isSome (V_gs V_ds V_th_sc mu_n C_ox
    lambda_clm E_c : ℚ) (g : Geometry) (hVgt : 0 < V_gs - V_th_sc)
    (hEcL : 0 < E_c * g.length) (hL : g.length ≠ 0) (hVds : 0 ≤ V_ds) :
    (velsat_conduction_checked V_gs V_ds V_th_sc mu_n C_ox lambda_clm E_c
      g).isSome = true := by
  have hq1 : (0:ℚ) < 1 + (V_gs - V_th_sc) / (E_c * g.length) := by
    have := div_pos hVgt hEcL
    linarith
  have hq2 : (0:ℚ) < 1 + V_ds / (E_c * g.length) := by
    have := div_nonneg hVds hEcL.le
    linarith
  simp only [velsat_conduction_checked, div?, if_neg hEcL.ne',
    if_neg hq1.ne', if_neg hVgt.ne', if_neg hL, if_neg hq2.ne',
    Option.bind_eq_bind', Option.some_bind]
  split_ifs <;> rfl

/-- The guarded velocity-saturation variant returns a value for every
`V_gs` and every `V_ds ≥ 0` under the positivity invariants. -/
lemma velsat_checked_isSome_aux (V_gs V_ds temperature : ℚ) (m : Material)
    (g : Geometry) (hmu : 0 < m.electron_mobility_value)
    (hsv : 0 < m.saturation_velocity) (htox : 0 < g.oxide_thickness)
    (hL : 0 < g.length) (hT : temperature + 5463/20 ≠ 0) (hVds : 0 ≤ V_ds) :
    (calculate_with_short_channel_effects_velsat_checked V_gs V_ds m g
      temperature).isSome = true := by
  have hr : (300:ℚ) / (temperature + 5463/20) ≠ 0 :=
    div_ne_zero (by norm_num) hT
  have hmun : (0:ℚ) < m.electron_mobility_value *
      (300 / (temperature + 5463/20))^2 :=
    mul_pos hmu (pow_two_pos_of_ne_zero hr)
  have hL6 : g.length * 1000000 ≠ 0 := by positivity
  have hEcL : (0:ℚ) < m.saturation_velocity * (1/100) /
      (m.electron_mobility_value * (300 / (temperature + 5463/20))^2) *
      g.length := by positivity
  simp only [calculate_with_short_channel_effects_velsat_checked, div?,
    if_neg hT, if_neg hL6, if_neg htox.ne', if_neg hmun.ne',
    Option.bind_eq_bind', Option.some_bind]
  split_ifs with hcut
  · rfl
  · exact velsat_conduction_checked_isSome _ _ _ _ _ _ _ g
      (sub_pos.mpr (not_le.mp hcut)) hEcL hL.ne' hVds

/-- The guarded basic evaluator returns a value whenever `L > 0`. -/
lemma basic_checked_isSome_aux (V_gs V_ds : ℚ) (m : Material) (g : Geometry)
    (hL : 0 < g.length) :
    (calculate_drain_current_checked V_gs V_ds m g).isSome = true := by
  simp only [calculate_drain_current_checked, div?, if_neg hL.ne',
    Option.map_some']
  split_ifs <;> rfl

/-- The guarded simple variant returns a value for all real `V_gs`, `V_ds`
whenever `L > 0`, `t_ox > 0` and the Kelvin temperature is nonzero. -/
lemma simple_checked_isSome_aux (V_gs V_ds temperature : ℚ) (m : Material)
    (g : Geometry) (hL : 0 < g.length) (htox : 0 < g.oxide_thickness)
    (hT : temperature + 5463/20 ≠ 0) :
    (calculate_with_short_channel_effects_simple_checked V_gs V_ds m g
      temperature).isSome = true := by
  have hL6 : g.length * 1000000 ≠ 0 := by positivity
  simp only [calculate_with_short_channel_effects_simple_checked, div?,
    if_neg hT, if_neg hL6, if_neg htox.ne', if_neg hL.ne',
    Option.bind_eq_bind', Option.some_bind]
  split_ifs <;> rfl

/-- Claim C8, counterexample: at V_gs = 2, V_ds = −1 (temperature
26.85 °C) with strictly positive material and geometry parameters, the
velocity-saturation variant's linear-region divisor `1 + V_ds/(E_c·L)`
equals zero (E_c·L = 1), so the guarded evaluator hits its error branch:
the §3 positivity invariants do not make all divisions safe for negative
`V_ds`. -/
theorem velsat_zero_divisor_at_negative_vds :
    ((0:ℚ) < c8Material.electron_mobility_value ∧
        (0:ℚ) < c8Material.dielectric_constant ∧
        (0:ℚ) < c8Material.saturation_velocity ∧
        (0:ℚ) < c8Geometry.length ∧
        (0:ℚ) < c8Geometry.width ∧
        (0:ℚ) < c8Geometry.oxide_thickness) ∧
      calculate_with_short_channel_effects_velsat_checked 2 (-1) c8Material
        c8Geometry (2685/100) = none := by
  refine ⟨⟨by norm_num [c8Material], by norm_num [c8Material],
    by norm_num [c8Material], by norm_num [c8Geometry],
    by norm_num [c8Geometry], by norm_num [c8Geometry]⟩, ?_⟩
  norm_num [calculate_with_short_channel_effects_velsat_checked,
    velsat_conduction_checked, div?, temperature_dependent_vth, epsilon_0,
    c8Material, c8Geometry]

/-- Claim C8, amended: under the §3 positivity invariants (and a nonzero
Kelvin temperature) no division in the basic evaluator or the simple
variant has a zero denominator for any real `V_gs`, `V_ds`, and none in
the velocity-saturation variant for any real `V_gs` and any `V_ds ≥ 0`
(negative `V_ds` can zero its linear-region divisor `1 + V_ds/(E_c·L)`):
the guarded embeddings return a value. -/
theorem evaluators_never_divide_by_zero (V_gs V_ds temperature : ℚ)
    (m : Material) (g : Geometry) (hmu : 0 < m.electron_mobility_value)
    (hdi : 0 < m.dielectric_constant) (hsv : 0 < m.saturation_velocity)
    (hL : 0 < g.length) (hW : 0 < g.width) (htox : 0 < g.oxide_thickness)
    (hT : temperature + 5463/20 ≠ 0) :
    (calculate_drain_current_checked V_gs V_ds m g).isSome = true ∧
      (calculate_with_short_channel_effects_simple_checked V_gs V_ds m g
        temperature).isSome = true ∧
      (0 ≤ V_ds →
        (calculate_with_short_channel_effects_velsat_checked V_gs V_ds m g
          temperature).isSome = true) :=
  ⟨basic_checked_isSome_aux V_gs V_ds m g hL,
    simple_checked_isSome_aux V_gs V_ds temperature m g hL htox hT,
    fun hVds => velsat_checked_isSome_aux V_gs V_ds temperature m g hmu hsv
      htox hL hT hVds⟩

theorem evaluators_never_divide_by_zero_witness :
    ((0:ℚ) < c8Material.electron_mobility_value ∧
        (0:ℚ) < c8Material.dielectric_constant ∧
        (0:ℚ) < c8Material.saturation_velocity ∧
        (0:ℚ) < c8Geometry.length ∧
        (0:ℚ) < c8Geometry.width ∧
        (0:ℚ) < c8Geometry.oxide_thickness ∧
        (2685/100 : ℚ) + 5463/20 ≠ 0) ∧
      ((calculate_drain_current_checked 2 1 c8Material c8Geometry).isSome
          = true ∧
        (calculate_with_short_channel_effects_simple_checked 2 1 c8Material
          c8Geometry (2685/100)).isSome = true ∧
        (calculate_with_short_channel_effects_velsat_checked 2 1 c8Material
          c8Geometry (2685/100)).isSome = true) := by
  have h := evaluators_never_divide_by_zero 2 1 (2685/100) c8Material
    c8Geometry (by norm_num [c8Material]) (by norm_num [c8Material])
    (by norm_num [c8Material]) (by norm_num [c8Geometry])
    (by norm_num [c8Geometry]) (by norm_num [c8Geometry]) (by norm_num)
  exact ⟨⟨by norm_num [c8Material], by norm_num [c8Material],
    by norm_num [c8Material], by norm_num [c8Geometry],
    by norm_num [c8Geometry], by norm_num [c8Geometry], by norm_num⟩,
    h.1, h.2.1, h.2.2 (by norm_num)⟩
